import Mathlib

/-!
Verification development for the smartnode decision core.

This file gives a shallow embedding of the relevant parts of the repository:

* `GetClaimStatus` from rocketpool/common/rewards/utils.go (packed bitmap
  decoding into claimed and unclaimed reward intervals);
* `CalculateEffectiveStakes` and the snapshot data model from
  shared/services/state/network-state.go;
* `CreateNetworkState` and `getNetworkDetails` from the same file, with
  every chain read modelled as an `Except`-valued input supplied by an
  environment record (the ChainFacade of the design document);
* `GetIntervalInfo`, `DownloadRewardsFile` and `GetELBlockHeaderForTime`
  from rocketpool/common/rewards/utils.go;
* `reduceBond` from the bond reduction task.

Machine integers: on-chain quantities (wei amounts, epochs, block numbers)
are uint256 or uint64 values handled through Go `big.Int`; they are
non-negative, so they are modelled as `Nat`. Time arithmetic can go
negative (durations are signed int64 nanosecond counts in Go), so it is
modelled as `Int`. Go `big.Int.Div` is Euclidean division, which for the
divisors used here coincides with Lean `Int` division `/` (`Int.ediv`);
Go native int64 division truncates toward zero and is modelled with
`Int.tdiv`. All Go times in these functions are whole seconds
(`time.Unix(sec, 0)` and second-granularity chain values), so the
nanosecond representation is exact and the model works in seconds.
-/

namespace Smartnode

/-! ## Claim status decoding (GetClaimStatus, utils.go lines 54-102) -/

structure ClaimStatus where
  Claimed : List Nat
  Unclaimed : List Nat
deriving DecidableEq, Repr

/-- The bit test from the loop body: `mask = 1 << j`,
`maskedBitmap = bitmap AND mask`, claimed iff `maskedBitmap == mask`. -/
def bitClaimed (bitmap j : Nat) : Bool :=
  (bitmap &&& (1 <<< j)) == (1 <<< j)

/-- One bucket of the nested loop in `GetClaimStatus`: indices `i*256+j`
for `j` in `0..255`.  The Go loop breaks as soon as `targetIndex >=
currentIndex`; since `i*256+j` is strictly increasing in `j`, the break is
equivalent to keeping exactly the `j` with `i*256+j < currentIndex`. -/
def bucketIndices (currentIndex i : Nat) (keep : Nat → Bool) : List Nat :=
  ((List.range 256).filter (fun j => decide (i * 256 + j < currentIndex) && keep j)).map
    (fun j => i * 256 + j)

/-- `GetClaimStatus`: `bucket = currentIndex / 256`; buckets `0..bucket`
are fetched (here: given by the map `bitmaps` from bucket number to its
256-bit word) and each interval index below `currentIndex` is classified
by its bit. -/
def GetClaimStatus (bitmaps : Nat → Nat) (currentIndex : Nat) : ClaimStatus :=
  let bucket := currentIndex / 256
  { Claimed := (List.range (bucket + 1)).flatMap
      (fun i => bucketIndices currentIndex i (fun j => bitClaimed (bitmaps i) j))
    Unclaimed := (List.range (bucket + 1)).flatMap
      (fun i => bucketIndices currentIndex i (fun j => ! bitClaimed (bitmaps i) j)) }

/-! ## Snapshot data model (network-state.go) -/

/-- The lifecycle states of types.MinipoolStatus. -/
inductive MinipoolStatus where
  | Initialised
  | Prelaunch
  | Staking
  | Withdrawable
  | Dissolved
deriving DecidableEq, Repr

/-- Consensus-layer record per public key (beacon.ValidatorStatus),
restricted to the fields this core reads. -/
structure ValidatorStatus where
  Balance : Nat := 0
  ActivationEpoch : Nat := 0
  ExitEpoch : Nat := 0
  Slashed : Bool := false
deriving DecidableEq, Repr

/-- rpstate.NativeNodeDetails, restricted to the fields this core reads.
Addresses are modelled as `Nat`. -/
structure NativeNodeDetails where
  NodeAddress : Nat := 0
  RplStake : Nat := 0
  RegistrationTime : Nat := 0
deriving DecidableEq, Repr

/-- rpstate.NativeMinipoolDetails, restricted to the fields this core
reads.  `Pubkey = 0` stands for the empty public key. -/
structure NativeMinipoolDetails where
  MinipoolAddress : Nat := 0
  NodeAddress : Nat := 0
  Exists : Bool := true
  Status : MinipoolStatus := MinipoolStatus.Initialised
  Pubkey : Nat := 0
  UserDepositBalance : Nat := 0
  NodeDepositBalance : Nat := 0
deriving DecidableEq, Repr

/-- beacon.Eth2Config, restricted to the fields this core reads. -/
structure Eth2Config where
  GenesisTime : Nat := 0
  SecondsPerSlot : Nat := 0
  SlotsPerEpoch : Nat := 0
deriving DecidableEq, Repr

/-- rpstate.NetworkDetails: the protocol-wide parameters populated by
`getNetworkDetails`.  Amounts, rates and durations are chain words
(non-negative); durations are stored in seconds. -/
structure NetworkDetails where
  RplPrice : Nat := 0
  MinCollateralFraction : Nat := 0
  MaxCollateralFraction : Nat := 0
  RewardIndex : Nat := 0
  IntervalDuration : Nat := 0
  IntervalStart : Nat := 0
  NodeOperatorRewardsPercent : Nat := 0
  TrustedNodeOperatorRewardsPercent : Nat := 0
  ProtocolDaoRewardsPercent : Nat := 0
  PendingRPLRewards : Nat := 0
  ScrubPeriod : Nat := 0
  SmoothingPoolAddress : Nat := 0
  SmoothingPoolBalance : Nat := 0
  DepositPoolBalance : Nat := 0
  DepositPoolExcess : Nat := 0
  QueueCapacity : Nat := 0
  RPLInflationIntervalRate : Nat := 0
  RPLTotalSupply : Nat := 0
  PricesBlock : Nat := 0
  LatestReportablePricesBlock : Nat := 0
  ETHUtilizationRate : Nat := 0
  StakingETHBalance : Nat := 0
  RETHExchangeRate : Nat := 0
  TotalETHBalance : Nat := 0
  RETHBalance : Nat := 0
  TotalRETHSupply : Nat := 0
  TotalRPLStake : Nat := 0
  NodeFee : Nat := 0
  BalancesBlock : Nat := 0
  LatestReportableBalancesBlock : Nat := 0
  SubmitBalancesEnabled : Bool := false
  SubmitPricesEnabled : Bool := false
  MinipoolLaunchTimeout : Nat := 0
  PromotionScrubPeriod : Nat := 0
  BondReductionWindowStart : Nat := 0
  BondReductionWindowLength : Nat := 0
  DepositPoolUserBalance : Nat := 0
deriving DecidableEq, Repr

/-- The node address index built by `CreateNetworkState` (lines 126-129):

    for _, details := range state.NodeDetails \x7b
        state.NodeDetailsByAddress[details.NodeAddress] = &details
    \x7d

In this Go version the range statement declares ONE loop variable
`details` reused across iterations, and `&details` is the address of that
single variable.  Every map entry therefore stores a pointer to the same
cell, and after the loop the cell holds the last element of the slice.
The model keeps the inserted keys and the shared cell content. -/
structure NodeAddressIndex where
  keys : List Nat
  cell : Option NativeNodeDetails
deriving DecidableEq, Repr

/-- The loop itself: each iteration inserts the key (a pointer to the
shared cell) and overwrites the cell with the current element. -/
def buildNodeDetailsByAddress (nodes : List NativeNodeDetails) : NodeAddressIndex :=
  nodes.foldl (fun m d => { keys := m.keys ++ [d.NodeAddress], cell := some d })
    { keys := [], cell := none }

/-- Reading `state.NodeDetailsByAddress[addr]` afterwards: a present key
dereferences the shared cell. -/
def lookupNodeDetailsByAddress (m : NodeAddressIndex) (addr : Nat) :
    Option NativeNodeDetails :=
  if addr ∈ m.keys then m.cell else none

/-- One step of building `MinipoolDetailsByNode`: append the minipool to
the list bound to its node address (creating the binding if absent).
Unlike the node index, this loop stores `&state.MinipoolDetails[i]`, a
pointer to the slice element, so entries are the elements themselves. -/
def assocAppendMinipool (m : List (Nat × List NativeMinipoolDetails))
    (addr : Nat) (mpd : NativeMinipoolDetails) :
    List (Nat × List NativeMinipoolDetails) :=
  match m with
  | [] => [(addr, [mpd])]
  | (k, l) :: rest =>
      if k = addr then (k, l ++ [mpd]) :: rest
      else (k, l) :: assocAppendMinipool rest addr mpd

/-- The per-node minipool index built by `CreateNetworkState`
(lines 131-147). -/
def buildMinipoolDetailsByNode (mps : List NativeMinipoolDetails) :
    List (Nat × List NativeMinipoolDetails) :=
  mps.foldl (fun m mpd => assocAppendMinipool m mpd.NodeAddress mpd) []

/-- The snapshot (NetworkState struct). -/
structure NetworkState where
  IsAtlasDeployed : Bool := false
  ElBlockNumber : Nat := 0
  BeaconSlotNumber : Nat := 0
  BeaconConfig : Eth2Config := {}
  NetworkDetails : NetworkDetails := {}
  NodeDetails : List NativeNodeDetails := []
  NodeDetailsByAddress : NodeAddressIndex := { keys := [], cell := none }
  MinipoolDetails : List NativeMinipoolDetails := []
  MinipoolDetailsByAddress : List (Nat × NativeMinipoolDetails) := []
  MinipoolDetailsByNode : List (Nat × List NativeMinipoolDetails) := []
  ValidatorDetails : List (Nat × ValidatorStatus) := []
deriving DecidableEq, Repr

/-- `s.MinipoolDetailsByNode[node.NodeAddress]` (a missing key yields the
empty list, as ranging over a nil Go slice does nothing). -/
def nodeMinipools (s : NetworkState) (addr : Nat) : List NativeMinipoolDetails :=
  (s.MinipoolDetailsByNode.lookup addr).getD []

/-- `s.ValidatorDetails[mpd.Pubkey]` with its existence flag. -/
def lookupValidator (s : NetworkState) (pk : Nat) : Option ValidatorStatus :=
  s.ValidatorDetails.lookup pk

/-! ## Effective stakes (CalculateEffectiveStakes, lines 531-632) -/

/-- `intervalEndEpoch := s.BeaconSlotNumber / s.BeaconConfig.SlotsPerEpoch`. -/
def intervalEndEpoch (s : NetworkState) : Nat :=
  s.BeaconSlotNumber / s.BeaconConfig.SlotsPerEpoch

/-- The body of the minipool loop in the per-node worker (lines 551-577):
each `continue` leaves the accumulated pair unchanged; an eligible
minipool adds its user (borrowed) and node (bonded) deposit balances. -/
def eligibleEthStep (s : NetworkState) (acc : Nat × Nat)
    (mpd : NativeMinipoolDetails) : Nat × Nat :=
  if mpd.Exists = true ∧ mpd.Status = MinipoolStatus.Staking then
    match lookupValidator s mpd.Pubkey with
    | none => acc
    | some validatorStatus =>
        if intervalEndEpoch s < validatorStatus.ActivationEpoch then acc
        else if validatorStatus.ExitEpoch ≤ intervalEndEpoch s then acc
        else (acc.1 + mpd.UserDepositBalance, acc.2 + mpd.NodeDepositBalance)
  else acc

/-- `(eligibleBorrowedEth, eligibleBondedEth)` for one node. -/
def eligibleEthTotals (s : NetworkState) (addr : Nat) : Nat × Nat :=
  (nodeMinipools s addr).foldl (eligibleEthStep s) (0, 0)

/-- `minCollateral := eligibleBorrowedEth * minCollateralFraction / rplPrice`
(big.Int multiply then Euclidean divide; all values non-negative). -/
def minCollateral (s : NetworkState) (eligibleBorrowedEth : Nat) : Nat :=
  eligibleBorrowedEth * s.NetworkDetails.MinCollateralFraction / s.NetworkDetails.RplPrice

/-- `maxCollateral := eligibleBondedEth * maxCollateralFraction / rplPrice`. -/
def maxCollateral (s : NetworkState) (eligibleBondedEth : Nat) : Nat :=
  eligibleBondedEth * s.NetworkDetails.MaxCollateralFraction / s.NetworkDetails.RplPrice

/-- Lines 589-597: the raw RPL stake clamped to `0` below `minCollateral`
and to `maxCollateral` above it. -/
def clampedStake (s : NetworkState) (node : NativeNodeDetails) : Nat :=
  let minC := minCollateral s (eligibleEthTotals s node.NodeAddress).1
  let maxC := maxCollateral s (eligibleEthTotals s node.NodeAddress).2
  if node.RplStake < minC then 0
  else if maxC < node.RplStake then maxC
  else node.RplStake

/-- `slotTime := genesisTime + slotNumber * secondsPerSlot`, in seconds. -/
def slotTimeSec (s : NetworkState) : Nat :=
  s.BeaconConfig.GenesisTime + s.BeaconSlotNumber * s.BeaconConfig.SecondsPerSlot

/-- Lines 599-612: the optional participation scaling.  The eligible
duration `slotTime.Sub(regTime)` is a signed quantity; dividing the
nanosecond duration by `time.Second` is exact here because both times are
whole seconds.  The final `Mul` and `Div` are big.Int operations, so the
division is Euclidean (`Int./`). -/
def nodeEffectiveStake (s : NetworkState) (scaleByParticipation : Bool)
    (node : NativeNodeDetails) : Int :=
  let nodeStake : Int := (clampedStake s node : Int)
  if scaleByParticipation then
    let eligibleSeconds : Int := (slotTimeSec s : Int) - (node.RegistrationTime : Int)
    if eligibleSeconds < (s.NetworkDetails.IntervalDuration : Int) then
      nodeStake * eligibleSeconds / (s.NetworkDetails.IntervalDuration : Int)
    else nodeStake
  else nodeStake

/-- `CalculateEffectiveStakes`: the per-node worker bodies always return
nil, so `errgroup.Wait` always succeeds and the function returns the
per-node mapping (assembled from the slice in node order, lines 624-628)
together with the network-wide total. -/
def CalculateEffectiveStakes (s : NetworkState) (scaleByParticipation : Bool) :
    Except String (List (Nat × Int) × Int) :=
  let stakes := s.NodeDetails.map
    (fun node => (node.NodeAddress, nodeEffectiveStake s scaleByParticipation node))
  Except.ok (stakes, stakes.foldl (fun total p => total + p.2) 0)

/-- The eligibility condition as one test: the minipool exists with
status staking, its pubkey has a known validator status, the activation
epoch is at or before the interval ending epoch, and the exit epoch is
after that epoch. -/
def isEligibleMinipool (s : NetworkState) (mpd : NativeMinipoolDetails) : Bool :=
  mpd.Exists && (mpd.Status == MinipoolStatus.Staking) &&
    (match lookupValidator s mpd.Pubkey with
     | none => false
     | some v =>
         decide (v.ActivationEpoch ≤ intervalEndEpoch s) &&
         decide (intervalEndEpoch s < v.ExitEpoch))

/-- What a single minipool adds to the eligible borrowed and bonded
totals. -/
def minipoolContribution (s : NetworkState) (mpd : NativeMinipoolDetails) :
    Nat × Nat :=
  if isEligibleMinipool s mpd then (mpd.UserDepositBalance, mpd.NodeDepositBalance)
  else (0, 0)

/-! ## Snapshot construction (CreateNetworkState, lines 61-179, and
getNetworkDetails, lines 182-528)

Every chain read is an input supplied by the environment: `Except.error`
models a failed read.  `getNetworkDetails` issues its reads through an
errgroup whose `Wait` returns the first error reported by a worker; the
snapshot build aborts on that error, so the model sequences the reads in
program-text order (which error message is kept is the only
nondeterminism, and no claim depends on it). -/

/-- The read results consumed by `getNetworkDetails`, one per worker.
The last four are issued only when Atlas is deployed. -/
structure NetworkReadsEnv where
  rplPrice : Except String Nat
  minCollateralFraction : Except String Nat
  maxCollateralFraction : Except String Nat
  rewardIndex : Except String Nat
  intervalDuration : Except String Nat
  intervalStart : Except String Nat
  nodeOperatorRewardsPercent : Except String Nat
  trustedNodeOperatorRewardsPercent : Except String Nat
  protocolDaoRewardsPercent : Except String Nat
  pendingRPLRewards : Except String Nat
  scrubPeriod : Except String Nat
  smoothingPoolContract : Except String Nat
  smoothingPoolBalance : Except String Nat
  depositPoolBalance : Except String Nat
  depositPoolExcess : Except String Nat
  queueCapacity : Except String Nat
  rplInflationIntervalRate : Except String Nat
  rplTotalSupply : Except String Nat
  pricesBlock : Except String Nat
  latestReportablePricesBlock : Except String Nat
  ethUtilizationRate : Except String Nat
  stakingETHBalance : Except String Nat
  rethExchangeRate : Except String Nat
  totalETHBalance : Except String Nat
  rethBalance : Except String Nat
  totalRETHSupply : Except String Nat
  totalRPLStake : Except String Nat
  nodeFee : Except String Nat
  balancesBlock : Except String Nat
  latestReportableBalancesBlock : Except String Nat
  submitBalancesEnabled : Except String Bool
  submitPricesEnabled : Except String Bool
  minipoolLaunchTimeout : Except String Nat
  promotionScrubPeriod : Except String Nat
  bondReductionWindowStart : Except String Nat
  bondReductionWindowLength : Except String Nat
  depositPoolUserBalance : Except String Nat

/-- `getNetworkDetails`: every read is checked; the first failure aborts
with its error.  The Atlas-gated reads (promotion scrub period, bond
reduction window, deposit pool user balance) are issued only when
`isAtlasDeployed` is true; otherwise those fields keep their zero
values. -/
def getNetworkDetails (r : NetworkReadsEnv) (isAtlasDeployed : Bool) :
    Except String NetworkDetails := do
  let rplPrice ← r.rplPrice
  let minCollateralFraction ← r.minCollateralFraction
  let maxCollateralFraction ← r.maxCollateralFraction
  let rewardIndex ← r.rewardIndex
  let intervalDuration ← r.intervalDuration
  let intervalStart ← r.intervalStart
  let nodeOperatorRewardsPercent ← r.nodeOperatorRewardsPercent
  let trustedNodeOperatorRewardsPercent ← r.trustedNodeOperatorRewardsPercent
  let protocolDaoRewardsPercent ← r.protocolDaoRewardsPercent
  let pendingRPLRewards ← r.pendingRPLRewards
  let scrubPeriod ← r.scrubPeriod
  let smoothingPoolAddress ← r.smoothingPoolContract
  let smoothingPoolBalance ← r.smoothingPoolBalance
  let depositPoolBalance ← r.depositPoolBalance
  let depositPoolExcess ← r.depositPoolExcess
  let queueCapacity ← r.queueCapacity
  let rplInflationIntervalRate ← r.rplInflationIntervalRate
  let rplTotalSupply ← r.rplTotalSupply
  let pricesBlock ← r.pricesBlock
  let latestReportablePricesBlock ← r.latestReportablePricesBlock
  let ethUtilizationRate ← r.ethUtilizationRate
  let stakingETHBalance ← r.stakingETHBalance
  let rethExchangeRate ← r.rethExchangeRate
  let totalETHBalance ← r.totalETHBalance
  let rethBalance ← r.rethBalance
  let totalRETHSupply ← r.totalRETHSupply
  let totalRPLStake ← r.totalRPLStake
  let nodeFee ← r.nodeFee
  let balancesBlock ← r.balancesBlock
  let latestReportableBalancesBlock ← r.latestReportableBalancesBlock
  let submitBalancesEnabled ← r.submitBalancesEnabled
  let submitPricesEnabled ← r.submitPricesEnabled
  let minipoolLaunchTimeout ← r.minipoolLaunchTimeout
  let base : NetworkDetails :=
    { RplPrice := rplPrice
      MinCollateralFraction := minCollateralFraction
      MaxCollateralFraction := maxCollateralFraction
      RewardIndex := rewardIndex
      IntervalDuration := intervalDuration
      IntervalStart := intervalStart
      NodeOperatorRewardsPercent := nodeOperatorRewardsPercent
      TrustedNodeOperatorRewardsPercent := trustedNodeOperatorRewardsPercent
      ProtocolDaoRewardsPercent := protocolDaoRewardsPercent
      PendingRPLRewards := pendingRPLRewards
      ScrubPeriod := scrubPeriod
      SmoothingPoolAddress := smoothingPoolAddress
      SmoothingPoolBalance := smoothingPoolBalance
      DepositPoolBalance := depositPoolBalance
      DepositPoolExcess := depositPoolExcess
      QueueCapacity := queueCapacity
      RPLInflationIntervalRate := rplInflationIntervalRate
      RPLTotalSupply := rplTotalSupply
      PricesBlock := pricesBlock
      LatestReportablePricesBlock := latestReportablePricesBlock
      ETHUtilizationRate := ethUtilizationRate
      StakingETHBalance := stakingETHBalance
      RETHExchangeRate := rethExchangeRate
      TotalETHBalance := totalETHBalance
      RETHBalance := rethBalance
      TotalRETHSupply := totalRETHSupply
      TotalRPLStake := totalRPLStake
      NodeFee := nodeFee
      BalancesBlock := balancesBlock
      LatestReportableBalancesBlock := latestReportableBalancesBlock
      SubmitBalancesEnabled := submitBalancesEnabled
      SubmitPricesEnabled := submitPricesEnabled
      MinipoolLaunchTimeout := minipoolLaunchTimeout }
  if isAtlasDeployed then
    let promotionScrubPeriod ← r.promotionScrubPeriod
    let bondReductionWindowStart ← r.bondReductionWindowStart
    let bondReductionWindowLength ← r.bondReductionWindowLength
    let depositPoolUserBalance ← r.depositPoolUserBalance
    pure { base with
      PromotionScrubPeriod := promotionScrubPeriod
      BondReductionWindowStart := bondReductionWindowStart
      BondReductionWindowLength := bondReductionWindowLength
      DepositPoolUserBalance := depositPoolUserBalance }
  else
    pure base

/-- The read results consumed directly by `CreateNetworkState`.
`beaconBlock` carries the existence flag and the paired execution block
number returned by `GetBeaconBlock`; `minipoolShares` stands for the
final `CalculateCompleteMinipoolShares` pass (whose balance updates touch
fields no claim reads). -/
structure CreateEnv where
  beaconBlock : Except String (Bool × Nat)
  isAtlasDeployed : Except String Bool
  networkContracts : Except String Unit
  reads : NetworkReadsEnv
  nodeDetails : Except String (List NativeNodeDetails)
  minipoolDetails : Except String (List NativeMinipoolDetails)
  validatorStatuses : Except String (List (Nat × ValidatorStatus))
  minipoolShares : Except String Unit

/-- `CreateNetworkState`: sequential structure of the Go function.  Every
failing step returns its error immediately; the snapshot value exists
only on the success path. -/
def CreateNetworkState (env : CreateEnv) (slotNumber : Nat)
    (beaconConfig : Eth2Config) : Except String NetworkState :=
  match env.beaconBlock with
  | Except.error e => Except.error ("error getting Beacon block: " ++ e)
  | Except.ok bb =>
    if bb.1 = false then Except.error "slot did not have a Beacon block"
    else
      match env.isAtlasDeployed with
      | Except.error e => Except.error ("error checking if Atlas is deployed: " ++ e)
      | Except.ok isAtlasDeployed =>
        match env.networkContracts with
        | Except.error e => Except.error ("error getting network contracts: " ++ e)
        | Except.ok _ =>
          match getNetworkDetails env.reads isAtlasDeployed with
          | Except.error e => Except.error ("error getting network details: " ++ e)
          | Except.ok networkDetails =>
            match env.nodeDetails with
            | Except.error e => Except.error ("error getting all node details: " ++ e)
            | Except.ok nodeDetails =>
              match env.minipoolDetails with
              | Except.error e => Except.error ("error getting all minipool details: " ++ e)
              | Except.ok minipoolDetails =>
                match env.validatorStatuses with
                | Except.error e => Except.error e
                | Except.ok validatorDetails =>
                  match env.minipoolShares with
                  | Except.error e => Except.error e
                  | Except.ok _ =>
                    Except.ok
                      { IsAtlasDeployed := isAtlasDeployed
                        ElBlockNumber := bb.2
                        BeaconSlotNumber := slotNumber
                        BeaconConfig := beaconConfig
                        NetworkDetails := networkDetails
                        NodeDetails := nodeDetails
                        NodeDetailsByAddress := buildNodeDetailsByAddress nodeDetails
                        MinipoolDetails := minipoolDetails
                        MinipoolDetailsByAddress :=
                          minipoolDetails.map (fun m => (m.MinipoolAddress, m))
                        MinipoolDetailsByNode := buildMinipoolDetailsByNode minipoolDetails
                        ValidatorDetails := validatorDetails }

/-- All reads of `getNetworkDetails` succeeded (the Atlas-gated four are
required only when the flag is true). -/
def networkReadsOk (r : NetworkReadsEnv) (isAtlasDeployed : Bool) : Prop :=
  r.rplPrice.isOk = true ∧ r.minCollateralFraction.isOk = true ∧
  r.maxCollateralFraction.isOk = true ∧ r.rewardIndex.isOk = true ∧
  r.intervalDuration.isOk = true ∧ r.intervalStart.isOk = true ∧
  r.nodeOperatorRewardsPercent.isOk = true ∧
  r.trustedNodeOperatorRewardsPercent.isOk = true ∧
  r.protocolDaoRewardsPercent.isOk = true ∧ r.pendingRPLRewards.isOk = true ∧
  r.scrubPeriod.isOk = true ∧ r.smoothingPoolContract.isOk = true ∧
  r.smoothingPoolBalance.isOk = true ∧ r.depositPoolBalance.isOk = true ∧
  r.depositPoolExcess.isOk = true ∧ r.queueCapacity.isOk = true ∧
  r.rplInflationIntervalRate.isOk = true ∧ r.rplTotalSupply.isOk = true ∧
  r.pricesBlock.isOk = true ∧ r.latestReportablePricesBlock.isOk = true ∧
  r.ethUtilizationRate.isOk = true ∧ r.stakingETHBalance.isOk = true ∧
  r.rethExchangeRate.isOk = true ∧ r.totalETHBalance.isOk = true ∧
  r.rethBalance.isOk = true ∧ r.totalRETHSupply.isOk = true ∧
  r.totalRPLStake.isOk = true ∧ r.nodeFee.isOk = true ∧
  r.balancesBlock.isOk = true ∧ r.latestReportableBalancesBlock.isOk = true ∧
  r.submitBalancesEnabled.isOk = true ∧ r.submitPricesEnabled.isOk = true ∧
  r.minipoolLaunchTimeout.isOk = true ∧
  (isAtlasDeployed = true →
    r.promotionScrubPeriod.isOk = true ∧ r.bondReductionWindowStart.isOk = true ∧
    r.bondReductionWindowLength.isOk = true ∧ r.depositPoolUserBalance.isOk = true)

/-- Every read issued by `CreateNetworkState` succeeded. -/
def createReadsOk (env : CreateEnv) : Prop :=
  env.beaconBlock.isOk = true ∧ env.isAtlasDeployed.isOk = true ∧
  env.networkContracts.isOk = true ∧
  (∀ b, env.isAtlasDeployed = Except.ok b → networkReadsOk env.reads b) ∧
  env.nodeDetails.isOk = true ∧ env.minipoolDetails.isOk = true ∧
  env.validatorStatuses.isOk = true ∧ env.minipoolShares.isOk = true

/-! ## Interval info (GetIntervalInfo, utils.go lines 105-174) -/

/-- rewards.RewardsEvent, restricted to the fields this path reads.
Hashes and content identifiers are modelled as `Nat`. -/
structure RewardsEventM where
  MerkleRoot : Nat := 0
  IntervalStartTime : Nat := 0
  IntervalEndTime : Nat := 0
  MerkleTreeCID : Nat := 0
deriving DecidableEq, Repr

/-- One node entry of a rewards file.  `MerkleProof = none` models a
proof string that fails to deserialize in `GetMerkleProof`. -/
structure NodeRewardsM where
  CollateralRpl : Nat := 0
  OracleDaoRpl : Nat := 0
  SmoothingPoolEth : Nat := 0
  MerkleProof : Option (List Nat) := some []
deriving DecidableEq, Repr

/-- The deserialized rewards artifact: its stored root field and the
per-node reward map. -/
structure RewardsFileM where
  MerkleRoot : Nat := 0
  NodeRewards : List (Nat × NodeRewardsM) := []
deriving DecidableEq, Repr

/-- The IntervalInfo result record, with the zero values Go gives fields
that are never assigned. -/
structure IntervalInfoM where
  Index : Nat := 0
  CID : Nat := 0
  StartTime : Nat := 0
  EndTime : Nat := 0
  TreeFileExists : Bool := false
  MerkleRootValid : Bool := false
  NodeExists : Bool := false
  CollateralRplAmount : Nat := 0
  ODaoRplAmount : Nat := 0
  SmoothingPoolEthAmount : Nat := 0
  MerkleProof : List Nat := []
deriving DecidableEq, Repr

/-- The external results `GetIntervalInfo` consumes: the resolved event
(prehistory table or on-chain scan), the `os.Stat` existence check, the
file read and the JSON unmarshal. -/
structure IntervalEnv where
  event : Except String RewardsEventM
  treeFileExists : Bool
  fileRead : Except String Unit
  fileParse : Except String RewardsFileM

/-- `GetIntervalInfo`: a missing file returns early with
`TreeFileExists = false` and no error; a present file is read and
parsed; the root stored in the file is compared with the event root, a
mismatch returning early with `MerkleRootValid = false`; on a match the
node entry is looked up and, when present, its amounts and proof are
returned (a proof that fails to deserialize is an error). -/
def GetIntervalInfo (env : IntervalEnv) (nodeAddress interval : Nat) :
    Except String IntervalInfoM :=
  match env.event with
  | Except.error e => Except.error e
  | Except.ok event =>
    let base : IntervalInfoM :=
      { Index := interval
        CID := event.MerkleTreeCID
        StartTime := event.IntervalStartTime
        EndTime := event.IntervalEndTime }
    if env.treeFileExists = false then Except.ok base
    else
      match env.fileRead with
      | Except.error e => Except.error ("error reading tree file: " ++ e)
      | Except.ok _ =>
        match env.fileParse with
        | Except.error e => Except.error ("error deserializing tree file: " ++ e)
        | Except.ok proofWrapper =>
          if proofWrapper.MerkleRoot ≠ event.MerkleRoot then
            Except.ok { base with TreeFileExists := true }
          else
            match proofWrapper.NodeRewards.lookup nodeAddress with
            | none =>
                Except.ok { base with TreeFileExists := true, MerkleRootValid := true }
            | some rewards =>
                match rewards.MerkleProof with
                | none => Except.error "error deserializing merkle proof"
                | some proof =>
                    Except.ok { base with
                      TreeFileExists := true
                      MerkleRootValid := true
                      NodeExists := true
                      CollateralRplAmount := rewards.CollateralRpl
                      ODaoRplAmount := rewards.OracleDaoRpl
                      SmoothingPoolEthAmount := rewards.SmoothingPoolEth
                      MerkleProof := proof }

/-! ## Artifact download (DownloadRewardsFile, utils.go lines 267-326)

The three mirror URLs are tried in program order: primary, secondary and
the network-specific fallback.  The first two URLs carry the compressed
(ipfs) extension and their bodies are decompressed before writing; the
fallback serves the plain file.  Artifact bytes are modelled by their
parsed content (`RewardsFileM`); `http.Get`, the body read and the zstd
decompression are environment-supplied results. -/

structure DownloadEnv where
  get : Fin 3 → Except String (Nat × Except String RewardsFileM)
  decompress : RewardsFileM → Except String RewardsFileM

/-- What the function leaves behind: the file written to the rewards tree
path, if any, and the returned error status. -/
structure DownloadResult where
  written : Option RewardsFileM
  result : Except String Unit

/-- The mirror loop.  A transport error, non-200 status, failed body read
or failed decompression appends a line to the error builder and moves on
to the next URL; a success writes the (possibly decompressed) bytes and
returns nil; exhausting the list returns the accumulated error text. -/
def downloadAttempt (env : DownloadEnv) : List (Fin 3) → String → DownloadResult
  | [], errAcc => { written := none, result := Except.error errAcc }
  | u :: rest, errAcc =>
    match env.get u with
    | Except.error e =>
        downloadAttempt env rest (errAcc ++ "Downloading failed (" ++ e ++ ")\n")
    | Except.ok (statusCode, bodyResult) =>
      if statusCode ≠ 200 then
        downloadAttempt env rest (errAcc ++ "Downloading failed with status\n")
      else
        match bodyResult with
        | Except.error e =>
            downloadAttempt env rest
              (errAcc ++ "Error reading response bytes: " ++ e ++ "\n")
        | Except.ok body =>
          if u.val < 2 then
            match env.decompress body with
            | Except.error e =>
                downloadAttempt env rest
                  (errAcc ++ "Error decompressing: " ++ e ++ "\n")
            | Except.ok decompressed =>
                { written := some decompressed, result := Except.ok () }
          else
            { written := some body, result := Except.ok () }

/-- `DownloadRewardsFile` over the ordered URL list. -/
def DownloadRewardsFile (env : DownloadEnv) : DownloadResult :=
  downloadAttempt env [0, 1, 2] ""

/-- What one mirror on its own would deliver: `some bytes` when its
download chain (transport, status, body read, decompression where
applicable) succeeds, `none` otherwise. -/
def mirrorOutcome (env : DownloadEnv) (u : Fin 3) : Option RewardsFileM :=
  match env.get u with
  | Except.error _ => none
  | Except.ok (statusCode, bodyResult) =>
    if statusCode ≠ 200 then none
    else
      match bodyResult with
      | Except.error _ => none
      | Except.ok body =>
        if u.val < 2 then
          match env.decompress body with
          | Except.error _ => none
          | Except.ok decompressed => some decompressed
        else some body

/-! ## Bond reduction (reduceBond, node task lines 229-315)

`reduceBondTimeoutSafetyFactor = 2`.  Times and durations are in seconds
(`Int`); `windowLength / time.Duration(2)` is a native signed integer
division, hence `Int.tdiv`. -/

/-- The external results `reduceBond` consumes, in call order. -/
structure ReduceBondEnv where
  transactor : Except String Unit
  binding : Except String Unit
  minipoolV3 : Bool
  estimateGas : Except String Nat
  maxFeeConfigured : Nat
  headlessMaxFee : Except String Nat
  reduceBondTime : Except String Int
  gasCheckOk : Bool
  reduceBondAmount : Except String Nat
  waitForTransaction : Except String Unit

/-- Outcome of one `reduceBond` call: whether the transaction submission
was reached, the returned success flag and the returned error. -/
structure ReduceBondResult where
  submitted : Bool
  success : Bool
  error : Option String
deriving DecidableEq, Repr

def reduceBondTimeoutSafetyFactor : Int := 2

/-- `reduceBond`: the preparation steps (transactor, minipool binding,
v3 interface, gas estimate, max fee, the reduce bond time read) each
propagate failure as `(false, err)`.  When the gas price check fails,
the remaining time until `windowStart + windowLength` is compared with
`windowLength / 2`: not yet due defers with `(false, nil)`, otherwise
submission is forced.  Submission and the wait for inclusion propagate
their errors; success returns `(true, nil)`. -/
def reduceBond (env : ReduceBondEnv) (windowStart windowLength latestBlockTime : Int) :
    ReduceBondResult :=
  match env.transactor with
  | Except.error e => { submitted := false, success := false, error := some e }
  | Except.ok _ =>
  match env.binding with
  | Except.error e => { submitted := false, success := false, error := some e }
  | Except.ok _ =>
    if env.minipoolV3 = false then
      { submitted := false, success := false,
        error := some "delegate version is too low" }
    else
      match env.estimateGas with
      | Except.error e =>
          { submitted := false, success := false, error := some e }
      | Except.ok _ =>
        match (if env.maxFeeConfigured = 0 then env.headlessMaxFee
               else Except.ok env.maxFeeConfigured) with
        | Except.error e =>
            { submitted := false, success := false, error := some e }
        | Except.ok _ =>
          match env.reduceBondTime with
          | Except.error e =>
              { submitted := false, success := false, error := some e }
          | Except.ok reduceBondTime =>
            let submit : ReduceBondResult :=
              match env.reduceBondAmount with
              | Except.error e =>
                  { submitted := true, success := false, error := some e }
              | Except.ok _ =>
                match env.waitForTransaction with
                | Except.error e =>
                    { submitted := true, success := false, error := some e }
                | Except.ok _ =>
                    { submitted := true, success := true, error := none }
            if env.gasCheckOk then submit
            else
              let timeSinceReductionStart := latestBlockTime - reduceBondTime
              let remainingTime := (windowStart + windowLength) - timeSinceReductionStart
              if remainingTime < Int.tdiv windowLength reduceBondTimeoutSafetyFactor then
                submit
              else { submitted := false, success := false, error := none }

/-! ## Temporal block locator (GetELBlockHeaderForTime, utils.go lines
196-264)

The chain is the environment: `latest` is the current head block number
and `time n` the timestamp of block `n` (defined for `n ≤ latest`; the
RPC errors outside that range, modelled by `none`).  The Go code holds
block numbers in `big.Int` (`Int` here) and timestamps in float64; the
timestamp arithmetic only feeds comparisons and the model uses exact
integers (float64 rounding of second-granularity values cannot change
which block numbers are visited for realistic magnitudes, and no claim
below depends on the timestamp values themselves).  The clamp compares
`candidate.Uint64()` with `latest - 1` in uint64; the model assumes
`latest ≥ 1` and in-range candidates, which holds on every path reached
from the entry point.  The unbounded Go `for` loop is given fuel;
exhausted fuel is `none` and no claim asserts termination. -/

structure ChainEnv where
  latest : Nat
  time : Nat → Int

/-- `HeaderByNumber` for a block number: number and timestamp, defined on
`0 ≤ n ≤ latest`. -/
def headerAt (c : ChainEnv) (n : Int) : Option (Nat × Int) :=
  if 0 ≤ n ∧ n ≤ (c.latest : Int) then some (n.toNat, c.time n.toNat) else none

/-- The final backward walk (lines 231-240): while the candidate
timestamp exceeds the target, step to the previous block, making it both
the candidate and the best block; return the best block. -/
def walkBack (c : ChainEnv) (target : Int) :
    Nat → Int → Int → (Nat × Int) → Option (Nat × Int)
  | 0, _, _, _ => none
  | fuel + 1, candNum, candTime, best =>
    if target < candTime then
      match headerAt c (candNum - 1) with
      | none => none
      | some hdr => walkBack c target fuel (candNum - 1) hdr.2 hdr
    else some best

/-- The clamp of the moved candidate to `latest - 1` (lines 254-257). -/
def clampCand (c : ChainEnv) (moved : Int) : Int :=
  if (c.latest : Int) - 1 < moved then (c.latest : Int) - 1 else moved

/-- The bisection loop (lines 219-263).  `minDist = none` is the initial
infinite minimum distance.  An improving candidate becomes the best
block; a non-improving iteration with pivot size 1 takes the backward
walk and returns; otherwise the pivot halves (rounded up), the candidate
moves left or right by the new pivot, is clamped to `latest - 1`, and is
fetched for the next iteration. -/
def bisectLoop (c : ChainEnv) (target : Int) :
    Nat → Int → (Nat × Int) → (Nat × Int) → Option Nat → Nat → Option (Nat × Int)
  | 0, _, _, _, _, _ => none
  | fuel + 1, candNum, cand, best, minDist, pivotSize =>
    let d : Int := target - cand.2
    let dist : Nat := d.natAbs
    let improved : Bool :=
      match minDist with
      | none => true
      | some m => dist < m
    if improved = false ∧ pivotSize = 1 then
      walkBack c target fuel candNum cand.2 best
    else
      let best2 := if improved then cand else best
      let minDist2 := if improved then some dist else minDist
      let pivot2 := (pivotSize + 1) / 2
      let moved : Int := if d < 0 then candNum - (pivot2 : Int) else candNum + (pivot2 : Int)
      match headerAt c (clampCand c moved) with
      | none => none
      | some hdr => bisectLoop c target fuel (clampCand c moved) hdr best2 minDist2 pivot2

/-- `GetELBlockHeaderForTime`: `delta = (latest - deployBlock) / 2`
(big.Int Euclidean division), the search starts at `latest - delta` with
pivot size equal to that starting block number, infinite minimum
distance, and the starting block as best block. -/
def GetELBlockHeaderForTime (c : ChainEnv) (deployBlock : Nat) (target : Int)
    (fuel : Nat) : Option (Nat × Int) :=
  let delta : Int := ((c.latest : Int) - (deployBlock : Int)) / 2
  let candNum : Int := (c.latest : Int) - delta
  match headerAt c candNum with
  | none => none
  | some cand => bisectLoop c target fuel candNum cand cand none cand.1

/-! ## Concrete inputs for witnesses and counterexamples -/

/-- A register of reads that all succeed. -/
def readsAllOk : NetworkReadsEnv :=
  { rplPrice := Except.ok 1
    minCollateralFraction := Except.ok 1
    maxCollateralFraction := Except.ok 10
    rewardIndex := Except.ok 3
    intervalDuration := Except.ok 10
    intervalStart := Except.ok 0
    nodeOperatorRewardsPercent := Except.ok 1
    trustedNodeOperatorRewardsPercent := Except.ok 1
    protocolDaoRewardsPercent := Except.ok 1
    pendingRPLRewards := Except.ok 1
    scrubPeriod := Except.ok 1
    smoothingPoolContract := Except.ok 1
    smoothingPoolBalance := Except.ok 1
    depositPoolBalance := Except.ok 1
    depositPoolExcess := Except.ok 1
    queueCapacity := Except.ok 1
    rplInflationIntervalRate := Except.ok 1
    rplTotalSupply := Except.ok 1
    pricesBlock := Except.ok 1
    latestReportablePricesBlock := Except.ok 1
    ethUtilizationRate := Except.ok 1
    stakingETHBalance := Except.ok 1
    rethExchangeRate := Except.ok 1
    totalETHBalance := Except.ok 1
    rethBalance := Except.ok 1
    totalRETHSupply := Except.ok 1
    totalRPLStake := Except.ok 1
    nodeFee := Except.ok 1
    balancesBlock := Except.ok 1
    latestReportableBalancesBlock := Except.ok 1
    submitBalancesEnabled := Except.ok true
    submitPricesEnabled := Except.ok true
    minipoolLaunchTimeout := Except.ok 1
    promotionScrubPeriod := Except.ok 1
    bondReductionWindowStart := Except.ok 100
    bondReductionWindowLength := Except.ok 60
    depositPoolUserBalance := Except.ok 1 }

def nodeA : NativeNodeDetails := { NodeAddress := 1, RplStake := 11, RegistrationTime := 0 }

def nodeB : NativeNodeDetails := { NodeAddress := 2, RplStake := 22, RegistrationTime := 0 }

/-- A snapshot build in which every read succeeds and two nodes are
registered. -/
def envTwoNodes : CreateEnv :=
  { beaconBlock := Except.ok (true, 17)
    isAtlasDeployed := Except.ok false
    networkContracts := Except.ok ()
    reads := readsAllOk
    nodeDetails := Except.ok [nodeA, nodeB]
    minipoolDetails := Except.ok []
    validatorStatuses := Except.ok []
    minipoolShares := Except.ok () }

/-- The same build with one failing read (the RPL price). -/
def envFailingRead : CreateEnv :=
  { envTwoNodes with reads := { readsAllOk with rplPrice := Except.error "no response" } }

def beaconConfigEx : Eth2Config :=
  { GenesisTime := 0, SecondsPerSlot := 12, SlotsPerEpoch := 32 }

/-- A staking minipool, active on the Beacon chain before epoch 0 ends
and not exited, borrowing 16 and bonding 16. -/
def mpEligible : NativeMinipoolDetails :=
  { MinipoolAddress := 10, NodeAddress := 1, Exists := true,
    Status := MinipoolStatus.Staking, Pubkey := 7,
    UserDepositBalance := 16, NodeDepositBalance := 16 }

/-- A dissolved minipool that must contribute nothing. -/
def mpDissolved : NativeMinipoolDetails :=
  { MinipoolAddress := 11, NodeAddress := 1, Exists := true,
    Status := MinipoolStatus.Dissolved, Pubkey := 8,
    UserDepositBalance := 31, NodeDepositBalance := 1 }

def validatorEx : ValidatorStatus :=
  { Balance := 32, ActivationEpoch := 0, ExitEpoch := 100, Slashed := false }

/-- A node whose raw stake (1) is under the minimum collateral (16). -/
def nodeUnderMin : NativeNodeDetails :=
  { NodeAddress := 1, RplStake := 1, RegistrationTime := 0 }

/-- Snapshot for the under-collateralized node: price 1, minimum
fraction 1, maximum fraction 10, one eligible minipool with 16 borrowed
and 16 bonded, so minCollateral = 16 and maxCollateral = 160. -/
def stateUnderMin : NetworkState :=
  { BeaconSlotNumber := 0
    BeaconConfig := beaconConfigEx
    NetworkDetails := { RplPrice := 1, MinCollateralFraction := 1,
                        MaxCollateralFraction := 10, IntervalDuration := 10 }
    NodeDetails := [nodeUnderMin]
    MinipoolDetails := [mpEligible, mpDissolved]
    MinipoolDetailsByNode := [(1, [mpEligible, mpDissolved])]
    ValidatorDetails := [(7, validatorEx)] }

/-- A node registered at second 5, after the snapshot slot time
(second 0), with raw stake 100 inside the collateral band. -/
def nodeLateReg : NativeNodeDetails :=
  { NodeAddress := 1, RplStake := 100, RegistrationTime := 5 }

/-- Snapshot for the late-registration node: minCollateral = 16,
maxCollateral = 240, interval duration 10 seconds, slot time second 0. -/
def stateLateReg : NetworkState :=
  { BeaconSlotNumber := 0
    BeaconConfig := beaconConfigEx
    NetworkDetails := { RplPrice := 1, MinCollateralFraction := 1,
                        MaxCollateralFraction := 15, IntervalDuration := 10 }
    NodeDetails := [nodeLateReg]
    MinipoolDetails := [mpEligible]
    MinipoolDetailsByNode := [(1, [mpEligible])]
    ValidatorDetails := [(7, validatorEx)] }

/-- Rewards file content shared by the two interval-info scenarios. -/
def nodeRewardsEx : List (Nat × NodeRewardsM) :=
  [(1, { CollateralRpl := 10, OracleDaoRpl := 2, SmoothingPoolEth := 3,
         MerkleProof := some [5, 6] })]

/-- A stored file whose root field matches the on-chain event root 7. -/
def fileRootMatch : RewardsFileM := { MerkleRoot := 7, NodeRewards := nodeRewardsEx }

/-- The same leaves with a different stored root field. -/
def fileRootMismatch : RewardsFileM := { MerkleRoot := 8, NodeRewards := nodeRewardsEx }

def eventEx : RewardsEventM :=
  { MerkleRoot := 7, IntervalStartTime := 100, IntervalEndTime := 200, MerkleTreeCID := 42 }

def intervalEnvMatch : IntervalEnv :=
  { event := Except.ok eventEx, treeFileExists := true,
    fileRead := Except.ok (), fileParse := Except.ok fileRootMatch }

def intervalEnvMismatch : IntervalEnv :=
  { event := Except.ok eventEx, treeFileExists := true,
    fileRead := Except.ok (), fileParse := Except.ok fileRootMismatch }

def intervalEnvMissing : IntervalEnv :=
  { event := Except.ok eventEx, treeFileExists := false,
    fileRead := Except.ok (), fileParse := Except.error "unused" }

/-- The Merkle root recorded in the on-chain event of the download
scenario. -/
def eventRootEx : Nat := 2

/-- An artifact whose stored root (1) differs from `eventRootEx`. -/
def fileWrongRoot : RewardsFileM := { MerkleRoot := 1, NodeRewards := [] }

/-- Download scenario: the primary mirror answers 200 with
`fileWrongRoot`; the other mirrors are never reached. -/
def envFirstMirror : DownloadEnv :=
  { get := fun u =>
      if u.val = 0 then Except.ok (200, Except.ok fileWrongRoot)
      else Except.error "unreachable"
    decompress := fun f => Except.ok f }

def fileGood : RewardsFileM := { MerkleRoot := 2, NodeRewards := nodeRewardsEx }

/-- Download scenario: the primary mirror times out, the secondary
answers 200 with `fileGood`. -/
def envSecondMirror : DownloadEnv :=
  { get := fun u =>
      if u.val = 0 then Except.error "timeout"
      else if u.val = 1 then Except.ok (200, Except.ok fileGood)
      else Except.error "unreachable"
    decompress := fun f => Except.ok f }

/-- Download scenario: every mirror fails (transport, status 404,
status 500). -/
def envAllMirrorsFail : DownloadEnv :=
  { get := fun u =>
      if u.val = 0 then Except.error "timeout"
      else if u.val = 1 then Except.ok (404, Except.error "unused")
      else Except.ok (500, Except.error "unused")
    decompress := fun f => Except.ok f }

/-- Bond reduction scenario: every preparation step succeeds, the gas
price check fails, the reduction was requested at time 0. -/
def envBondReduction : ReduceBondEnv :=
  { transactor := Except.ok ()
    binding := Except.ok ()
    minipoolV3 := true
    estimateGas := Except.ok 21000
    maxFeeConfigured := 5
    headlessMaxFee := Except.ok 5
    reduceBondTime := Except.ok 0
    gasCheckOk := false
    reduceBondAmount := Except.ok 99
    waitForTransaction := Except.ok () }

/-- A five-block chain whose block `n` has timestamp `2 n`. -/
def chainFive : ChainEnv := { latest := 5, time := fun n => 2 * n }

/-! ## Helper lemmas -/

theorem isOk_of_eq_ok {α : Type} {x : Except String α} {a : α}
    (h : x = Except.ok a) : x.isOk = true := by
  subst h; rfl

theorem isOk_bind {α β : Type} {x : Except String α} {f : α → Except String β}
    (h : (x >>= f).isOk = true) : ∃ a, x = Except.ok a ∧ (f a).isOk = true := by
  cases x with
  | error e => exact Bool.noConfusion h
  | ok a => exact ⟨a, rfl, h⟩

/-- If `getNetworkDetails` succeeds, every read it issues succeeded. -/
theorem getNetworkDetails_ok_reads {r : NetworkReadsEnv} {b : Bool}
    (h : (getNetworkDetails r b).isOk = true) : networkReadsOk r b := by
  unfold getNetworkDetails at h
  obtain ⟨v1, h1, h⟩ := isOk_bind h
  obtain ⟨v2, h2, h⟩ := isOk_bind h
  obtain ⟨v3, h3, h⟩ := isOk_bind h
  obtain ⟨v4, h4, h⟩ := isOk_bind h
  obtain ⟨v5, h5, h⟩ := isOk_bind h
  obtain ⟨v6, h6, h⟩ := isOk_bind h
  obtain ⟨v7, h7, h⟩ := isOk_bind h
  obtain ⟨v8, h8, h⟩ := isOk_bind h
  obtain ⟨v9, h9, h⟩ := isOk_bind h
  obtain ⟨v10, h10, h⟩ := isOk_bind h
  obtain ⟨v11, h11, h⟩ := isOk_bind h
  obtain ⟨v12, h12, h⟩ := isOk_bind h
  obtain ⟨v13, h13, h⟩ := isOk_bind h
  obtain ⟨v14, h14, h⟩ := isOk_bind h
  obtain ⟨v15, h15, h⟩ := isOk_bind h
  obtain ⟨v16, h16, h⟩ := isOk_bind h
  obtain ⟨v17, h17, h⟩ := isOk_bind h
  obtain ⟨v18, h18, h⟩ := isOk_bind h
  obtain ⟨v19, h19, h⟩ := isOk_bind h
  obtain ⟨v20, h20, h⟩ := isOk_bind h
  obtain ⟨v21, h21, h⟩ := isOk_bind h
  obtain ⟨v22, h22, h⟩ := isOk_bind h
  obtain ⟨v23, h23, h⟩ := isOk_bind h
  obtain ⟨v24, h24, h⟩ := isOk_bind h
  obtain ⟨v25, h25, h⟩ := isOk_bind h
  obtain ⟨v26, h26, h⟩ := isOk_bind h
  obtain ⟨v27, h27, h⟩ := isOk_bind h
  obtain ⟨v28, h28, h⟩ := isOk_bind h
  obtain ⟨v29, h29, h⟩ := isOk_bind h
  obtain ⟨v30, h30, h⟩ := isOk_bind h
  obtain ⟨v31, h31, h⟩ := isOk_bind h
  obtain ⟨v32, h32, h⟩ := isOk_bind h
  obtain ⟨v33, h33, h⟩ := isOk_bind h
  cases b with
  | false =>
      exact ⟨isOk_of_eq_ok h1, isOk_of_eq_ok h2, isOk_of_eq_ok h3, isOk_of_eq_ok h4,
        isOk_of_eq_ok h5, isOk_of_eq_ok h6, isOk_of_eq_ok h7, isOk_of_eq_ok h8,
        isOk_of_eq_ok h9, isOk_of_eq_ok h10, isOk_of_eq_ok h11, isOk_of_eq_ok h12,
        isOk_of_eq_ok h13, isOk_of_eq_ok h14, isOk_of_eq_ok h15, isOk_of_eq_ok h16,
        isOk_of_eq_ok h17, isOk_of_eq_ok h18, isOk_of_eq_ok h19, isOk_of_eq_ok h20,
        isOk_of_eq_ok h21, isOk_of_eq_ok h22, isOk_of_eq_ok h23, isOk_of_eq_ok h24,
        isOk_of_eq_ok h25, isOk_of_eq_ok h26, isOk_of_eq_ok h27, isOk_of_eq_ok h28,
        isOk_of_eq_ok h29, isOk_of_eq_ok h30, isOk_of_eq_ok h31, isOk_of_eq_ok h32,
        isOk_of_eq_ok h33, fun hb => Bool.noConfusion hb⟩
  | true =>
      rw [if_pos rfl] at h
      obtain ⟨v34, h34, h⟩ := isOk_bind h
      obtain ⟨v35, h35, h⟩ := isOk_bind h
      obtain ⟨v36, h36, h⟩ := isOk_bind h
      obtain ⟨v37, h37, h⟩ := isOk_bind h
      exact ⟨isOk_of_eq_ok h1, isOk_of_eq_ok h2, isOk_of_eq_ok h3, isOk_of_eq_ok h4,
        isOk_of_eq_ok h5, isOk_of_eq_ok h6, isOk_of_eq_ok h7, isOk_of_eq_ok h8,
        isOk_of_eq_ok h9, isOk_of_eq_ok h10, isOk_of_eq_ok h11, isOk_of_eq_ok h12,
        isOk_of_eq_ok h13, isOk_of_eq_ok h14, isOk_of_eq_ok h15, isOk_of_eq_ok h16,
        isOk_of_eq_ok h17, isOk_of_eq_ok h18, isOk_of_eq_ok h19, isOk_of_eq_ok h20,
        isOk_of_eq_ok h21, isOk_of_eq_ok h22, isOk_of_eq_ok h23, isOk_of_eq_ok h24,
        isOk_of_eq_ok h25, isOk_of_eq_ok h26, isOk_of_eq_ok h27, isOk_of_eq_ok h28,
        isOk_of_eq_ok h29, isOk_of_eq_ok h30, isOk_of_eq_ok h31, isOk_of_eq_ok h32,
        isOk_of_eq_ok h33,
        fun _ => ⟨isOk_of_eq_ok h34, isOk_of_eq_ok h35, isOk_of_eq_ok h36,
          isOk_of_eq_ok h37⟩⟩

/-- If `CreateNetworkState` succeeds, every read it issued succeeded. -/
theorem createNetworkState_ok_reads {env : CreateEnv} {slotNumber : Nat}
    {beaconConfig : Eth2Config}
    (h : (CreateNetworkState env slotNumber beaconConfig).isOk = true) :
    createReadsOk env := by
  unfold CreateNetworkState at h
  cases hbb : env.beaconBlock with
  | error e => rw [hbb] at h; exact Bool.noConfusion h
  | ok bb =>
    rw [hbb] at h
    dsimp only at h
    by_cases hex : bb.1 = false
    · rw [if_pos hex] at h; exact Bool.noConfusion h
    · rw [if_neg hex] at h
      cases hat : env.isAtlasDeployed with
      | error e => rw [hat] at h; exact Bool.noConfusion h
      | ok atlas =>
        rw [hat] at h
        dsimp only at h
        cases hct : env.networkContracts with
        | error e => rw [hct] at h; exact Bool.noConfusion h
        | ok u =>
          rw [hct] at h
          dsimp only at h
          cases hnd : getNetworkDetails env.reads atlas with
          | error e => rw [hnd] at h; exact Bool.noConfusion h
          | ok networkDetails =>
            rw [hnd] at h
            dsimp only at h
            cases hns : env.nodeDetails with
            | error e => rw [hns] at h; exact Bool.noConfusion h
            | ok nodeDetails =>
              rw [hns] at h
              dsimp only at h
              cases hms : env.minipoolDetails with
              | error e => rw [hms] at h; exact Bool.noConfusion h
              | ok minipoolDetails =>
                rw [hms] at h
                dsimp only at h
                cases hvs : env.validatorStatuses with
                | error e => rw [hvs] at h; exact Bool.noConfusion h
                | ok validatorDetails =>
                  rw [hvs] at h
                  dsimp only at h
                  cases hsh : env.minipoolShares with
                  | error e => rw [hsh] at h; exact Bool.noConfusion h
                  | ok u2 =>
                    refine ⟨isOk_of_eq_ok hbb, isOk_of_eq_ok hat, isOk_of_eq_ok hct,
                      ?_, isOk_of_eq_ok hns, isOk_of_eq_ok hms, isOk_of_eq_ok hvs,
                      isOk_of_eq_ok hsh⟩
                    intro b hb
                    rw [hat] at hb
                    injection hb with hb
                    subst hb
                    exact getNetworkDetails_ok_reads (isOk_of_eq_ok hnd)

/-! ## Claim theorems -/

/-- Claim C1 (confirmed): if any individual read issued during snapshot
construction fails, `CreateNetworkState` returns an error and no
snapshot value.  `createReadsOk env` states that every issued read
succeeded, so its negation is exactly "some issued read failed"; the
conclusion `isOk = false` means the result is `Except.error` and carries
no `NetworkState`, so the caller never observes a full or a half built
snapshot. -/
theorem createNetworkState_fails_on_read_failure (env : CreateEnv)
    (slotNumber : Nat) (beaconConfig : Eth2Config)
    (hfail : ¬ createReadsOk env) :
    (CreateNetworkState env slotNumber beaconConfig).isOk = false := by
  cases hok : (CreateNetworkState env slotNumber beaconConfig).isOk with
  | false => rfl
  | true => exact absurd (createNetworkState_ok_reads hok) hfail

/-- Witness for C1: the build whose RPL price read fails returns an
error. -/
theorem createNetworkState_fails_on_read_failure_witness :
    (CreateNetworkState envFailingRead 0 beaconConfigEx).isOk = false :=
  createNetworkState_fails_on_read_failure envFailingRead 0 beaconConfigEx
    (fun hc => Bool.noConfusion ((hc.2.2.2.1 false rfl).1))

/-- Claim C9 (code bug): the spec has every derived index entry
referencing the node record with that address, but the range loop at
network-state.go lines 127-129 stores `&details`, the address of the
single loop variable, so after the loop every key of
`NodeDetailsByAddress` dereferences to the LAST element of
`NodeDetails`.  With two nodes the lookup of the first address yields
the second record. -/
theorem nodeDetailsByAddress_aliasing_bug :
    (CreateNetworkState envTwoNodes 0 beaconConfigEx).toOption.map
      (fun st => lookupNodeDetailsByAddress st.NodeDetailsByAddress nodeA.NodeAddress)
      = some (some nodeB) ∧ nodeA ≠ nodeB := by
  exact ⟨by decide, by decide⟩

/-- One loop iteration adds exactly the contribution of the minipool:
the borrowed and bonded amounts when all eligibility conditions hold,
nothing otherwise. -/
theorem eligibleEthStep_eq (s : NetworkState) (acc : Nat × Nat)
    (mpd : NativeMinipoolDetails) :
    eligibleEthStep s acc mpd =
      (acc.1 + (minipoolContribution s mpd).1, acc.2 + (minipoolContribution s mpd).2) := by
  by_cases h1 : mpd.Exists = true ∧ mpd.Status = MinipoolStatus.Staking
  · cases hlv : lookupValidator s mpd.Pubkey with
    | none =>
        simp [eligibleEthStep, minipoolContribution, isEligibleMinipool, h1.1, h1.2, hlv]
    | some v =>
        by_cases h2 : intervalEndEpoch s < v.ActivationEpoch
        · simp [eligibleEthStep, minipoolContribution, isEligibleMinipool,
            h1.1, h1.2, hlv, h2, Nat.not_le.2 h2]
        · by_cases h3 : v.ExitEpoch ≤ intervalEndEpoch s
          · simp [eligibleEthStep, minipoolContribution, isEligibleMinipool,
              h1.1, h1.2, hlv, h2, h3, Nat.not_lt.2 h3]
          · simp [eligibleEthStep, minipoolContribution, isEligibleMinipool,
              h1.1, h1.2, hlv, h2, h3, Nat.not_lt.1 h2, Nat.not_le.1 h3]
  · have hcontrib : minipoolContribution s mpd = (0, 0) := by
      unfold minipoolContribution isEligibleMinipool
      rw [if_neg]
      intro hb
      rw [Bool.and_eq_true, Bool.and_eq_true] at hb
      exact h1 ⟨hb.1.1, by simpa using hb.1.2⟩
    unfold eligibleEthStep
    rw [if_neg h1, hcontrib]
    simp

/-- Folding the loop body over a minipool list sums the contributions. -/
theorem eligibleEth_fold (s : NetworkState) (l : List NativeMinipoolDetails)
    (acc : Nat × Nat) :
    l.foldl (eligibleEthStep s) acc =
      (acc.1 + (l.map (fun mpd => (minipoolContribution s mpd).1)).sum,
       acc.2 + (l.map (fun mpd => (minipoolContribution s mpd).2)).sum) := by
  induction l generalizing acc with
  | nil => simp
  | cons mpd rest ih =>
      rw [List.foldl_cons, eligibleEthStep_eq, ih]
      simp [add_assoc]

/-- Claim C3 (confirmed): a minipool adds its borrowed
(UserDepositBalance) and bonded (NodeDepositBalance) amounts to the
eligible totals exactly when it exists with status staking, its pubkey
has a known validator status, the activation epoch is at or before the
interval ending epoch and the exit epoch is after that epoch
(`isEligibleMinipool`); any minipool failing a condition contributes
`(0, 0)` and in particular every non-staking minipool contributes zero;
and the computation never errors (`CalculateEffectiveStakes` always
returns `Except.ok`, since the per-node workers only skip ineligible
minipools). -/
theorem eligibleEth_contribution_iff (s : NetworkState) (addr : Nat) :
    eligibleEthTotals s addr =
      (((nodeMinipools s addr).map (fun mpd => (minipoolContribution s mpd).1)).sum,
       ((nodeMinipools s addr).map (fun mpd => (minipoolContribution s mpd).2)).sum) ∧
    (∀ mpd, isEligibleMinipool s mpd = true →
       minipoolContribution s mpd = (mpd.UserDepositBalance, mpd.NodeDepositBalance)) ∧
    (∀ mpd, mpd.Status ≠ MinipoolStatus.Staking → minipoolContribution s mpd = (0, 0)) ∧
    (∀ b, (CalculateEffectiveStakes s b).isOk = true) := by
  refine ⟨?_, ?_, ?_, fun b => rfl⟩
  · unfold eligibleEthTotals
    rw [eligibleEth_fold]
    simp
  · intro mpd h
    unfold minipoolContribution
    rw [if_pos h]
  · intro mpd h
    unfold minipoolContribution isEligibleMinipool
    rw [if_neg]
    intro hb
    rw [Bool.and_eq_true, Bool.and_eq_true] at hb
    exact h (by simpa using hb.1.2)

/-- Witness for C3: the dissolved minipool of the concrete snapshot
contributes nothing. -/
theorem eligibleEth_contribution_iff_witness :
    minipoolContribution stateUnderMin mpDissolved = (0, 0) :=
  (eligibleEth_contribution_iff stateUnderMin 1).2.2.1 mpDissolved (by decide)

/-- Claim C2 counterexample: in `stateUnderMin` the node has nonzero
eligible borrowed (16) and bonded (16) ETH, minCollateral is 16, but the
raw stake 1 is clamped to 0, so the claimed lower bound
`minCollateral ≤ effectiveStake` fails. -/
theorem effectiveStake_below_minCollateral_counterexample :
    (eligibleEthTotals stateUnderMin nodeUnderMin.NodeAddress).1 ≠ 0 ∧
    (eligibleEthTotals stateUnderMin nodeUnderMin.NodeAddress).2 ≠ 0 ∧
    nodeEffectiveStake stateUnderMin false nodeUnderMin = 0 ∧
    minCollateral stateUnderMin (eligibleEthTotals stateUnderMin nodeUnderMin.NodeAddress).1 = 16 ∧
    ¬ ((minCollateral stateUnderMin
          (eligibleEthTotals stateUnderMin nodeUnderMin.NodeAddress).1 : Int) ≤
        nodeEffectiveStake stateUnderMin false nodeUnderMin) := by
  exact ⟨by decide, by decide, by decide, by decide, by decide⟩

/-- Claim C2 (corrected): for a node with nonzero eligible borrowed and
bonded ETH, and when the band is non-degenerate
(`minCollateral ≤ maxCollateral`), the post-clamp effective stake
returned by `CalculateEffectiveStakes` (without participation scaling)
is either `0` (raw stake below `minCollateral`) or lies between
`minCollateral` and `maxCollateral`. -/
theorem clampedStake_zero_or_within_band (s : NetworkState)
    (node : NativeNodeDetails)
    (_hb : (eligibleEthTotals s node.NodeAddress).1 ≠ 0)
    (_hd : (eligibleEthTotals s node.NodeAddress).2 ≠ 0)
    (hband : minCollateral s (eligibleEthTotals s node.NodeAddress).1 ≤
             maxCollateral s (eligibleEthTotals s node.NodeAddress).2) :
    (∃ total, CalculateEffectiveStakes s false =
        Except.ok (s.NodeDetails.map
          (fun n => (n.NodeAddress, nodeEffectiveStake s false n)), total)) ∧
    nodeEffectiveStake s false node = (clampedStake s node : Int) ∧
    (clampedStake s node = 0 ∨
      (minCollateral s (eligibleEthTotals s node.NodeAddress).1 ≤ clampedStake s node ∧
       clampedStake s node ≤ maxCollateral s (eligibleEthTotals s node.NodeAddress).2)) := by
  refine ⟨⟨_, rfl⟩, rfl, ?_⟩
  unfold clampedStake
  simp only
  split_ifs with h1 h2
  · exact Or.inl rfl
  · exact Or.inr ⟨hband, le_refl _⟩
  · exact Or.inr ⟨Nat.not_lt.1 h1, Nat.not_lt.1 h2⟩

/-- Witness for C2 (amended): the in-band node of `stateLateReg` has
clamped stake 100 inside `[16, 240]`. -/
theorem clampedStake_zero_or_within_band_witness :
    clampedStake stateLateReg nodeLateReg = 0 ∨
      (minCollateral stateLateReg
          (eligibleEthTotals stateLateReg nodeLateReg.NodeAddress).1 ≤
        clampedStake stateLateReg nodeLateReg ∧
       clampedStake stateLateReg nodeLateReg ≤
        maxCollateral stateLateReg
          (eligibleEthTotals stateLateReg nodeLateReg.NodeAddress).2) :=
  (clampedStake_zero_or_within_band stateLateReg nodeLateReg
    (by decide) (by decide) (by decide)).2.2

/-- Claim C10 counterexample: with participation scaling on, a node
registered after the snapshot slot time gets a NEGATIVE effective stake:
`eligibleSeconds = -5`, so the stake 100 becomes `-50`. -/
theorem nodeEffectiveStake_negative_counterexample :
    nodeEffectiveStake stateLateReg true nodeLateReg = -50 ∧
    nodeEffectiveStake stateLateReg true nodeLateReg < 0 := by
  exact ⟨by decide, by decide⟩

/-- Claim C10 (corrected): the effective stake is non-negative and never
above the unscaled clamped stake PROVIDED the node registration time is
not after the snapshot slot time (and the interval duration is
positive); without that proviso the scaled value can go negative, as the
counterexample shows. -/
theorem nodeEffectiveStake_nonneg_of_reg_before_slot (s : NetworkState)
    (node : NativeNodeDetails) (scaleByParticipation : Bool)
    (hreg : node.RegistrationTime ≤ slotTimeSec s)
    (hint : 0 < s.NetworkDetails.IntervalDuration) :
    0 ≤ nodeEffectiveStake s scaleByParticipation node ∧
    nodeEffectiveStake s scaleByParticipation node ≤ (clampedStake s node : Int) := by
  unfold nodeEffectiveStake
  cases scaleByParticipation with
  | false => simp
  | true =>
    simp only
    by_cases hlt : ((slotTimeSec s : Int) - (node.RegistrationTime : Int)) <
        (s.NetworkDetails.IntervalDuration : Int)
    · rw [if_pos hlt]
      have hns0 : (0 : Int) ≤ (clampedStake s node : Int) := Int.natCast_nonneg _
      have he0 : (0 : Int) ≤ (slotTimeSec s : Int) - (node.RegistrationTime : Int) :=
        sub_nonneg.2 (by exact_mod_cast hreg)
      have hI0 : (0 : Int) < (s.NetworkDetails.IntervalDuration : Int) := by
        exact_mod_cast hint
      constructor
      · exact Int.ediv_nonneg (mul_nonneg hns0 he0) (le_of_lt hI0)
      · have h1 : (clampedStake s node : Int) *
            ((slotTimeSec s : Int) - (node.RegistrationTime : Int)) ≤
            (clampedStake s node : Int) * (s.NetworkDetails.IntervalDuration : Int) :=
          mul_le_mul_of_nonneg_left (le_of_lt hlt) hns0
        calc (clampedStake s node : Int) *
              ((slotTimeSec s : Int) - (node.RegistrationTime : Int)) /
              (s.NetworkDetails.IntervalDuration : Int)
            ≤ (clampedStake s node : Int) * (s.NetworkDetails.IntervalDuration : Int) /
              (s.NetworkDetails.IntervalDuration : Int) := Int.ediv_le_ediv hI0 h1
          _ = (clampedStake s node : Int) := Int.mul_ediv_cancel _ (ne_of_gt hI0)
    · rw [if_neg hlt]
      exact ⟨Int.natCast_nonneg _, le_refl _⟩

/-- Witness for C10 (amended): the node of `stateUnderMin` is registered
at the slot time, and its scaled effective stake is within bounds. -/
theorem nodeEffectiveStake_nonneg_witness :
    0 ≤ nodeEffectiveStake stateUnderMin true nodeUnderMin ∧
    nodeEffectiveStake stateUnderMin true nodeUnderMin ≤
      (clampedStake stateUnderMin nodeUnderMin : Int) :=
  nodeEffectiveStake_nonneg_of_reg_before_slot stateUnderMin nodeUnderMin true
    (by decide) (by decide)

/-- The Go mask test agrees with the bit of the bitmap word. -/
theorem bitClaimed_eq_testBit (b j : Nat) : bitClaimed b j = b.testBit j := by
  unfold bitClaimed
  rw [Nat.shiftLeft_eq, one_mul, Nat.and_two_pow]
  cases h : b.testBit j with
  | true => simp
  | false =>
      simp only [Bool.toNat_false, Nat.zero_mul, beq_eq_false_iff_ne, ne_eq]
      exact fun hh => absurd hh.symm (Nat.pos_iff_ne_zero.1 (Nat.two_pow_pos j))

/-- Membership in the bucketed index list: exactly the interval indices
below `currentIndex` whose bucket bit satisfies `keep`. -/
theorem mem_bucketed (currentIndex : Nat) (keep : Nat → Nat → Bool) (t : Nat) :
    (t ∈ (List.range (currentIndex / 256 + 1)).flatMap
        (fun i => bucketIndices currentIndex i (keep i))) ↔
      (t < currentIndex ∧ keep (t / 256) (t % 256) = true) := by
  constructor
  · intro h
    rw [List.mem_flatMap] at h
    obtain ⟨i, _hi, ht⟩ := h
    unfold bucketIndices at ht
    rw [List.mem_map] at ht
    obtain ⟨j, hj, rfl⟩ := ht
    rw [List.mem_filter, List.mem_range] at hj
    obtain ⟨hjr, hcond⟩ := hj
    rw [Bool.and_eq_true, decide_eq_true_eq] at hcond
    have hdiv : (i * 256 + j) / 256 = i := by omega
    have hmod : (i * 256 + j) % 256 = j := by omega
    exact ⟨hcond.1, by rw [hdiv, hmod]; exact hcond.2⟩
  · intro ht
    rw [List.mem_flatMap]
    refine ⟨t / 256, ?_, ?_⟩
    · rw [List.mem_range]
      have := Nat.div_le_div_right (c := 256) (Nat.le_of_lt ht.1)
      omega
    · unfold bucketIndices
      rw [List.mem_map]
      refine ⟨t % 256, ?_, by omega⟩
      rw [List.mem_filter, List.mem_range]
      refine ⟨by omega, ?_⟩
      rw [Bool.and_eq_true, decide_eq_true_eq]
      exact ⟨by omega, ht.2⟩

/-- Claim C4 (confirmed): `GetClaimStatus` partitions every interval
index in `0..currentIndex-1` into exactly one of Claimed (its bit is set
in bitmap bucket `index/256` at position `index%256`) or Unclaimed (bit
clear); indices at or above `currentIndex` appear in neither list; and
with bucket 0 holding 0b101 and `currentIndex = 3` it returns
Claimed = [0, 2] and Unclaimed = [1]. -/
theorem getClaimStatus_partitions (bitmaps : Nat → Nat) (currentIndex t : Nat) :
    (t ∈ (GetClaimStatus bitmaps currentIndex).Claimed ↔
      (t < currentIndex ∧ (bitmaps (t / 256)).testBit (t % 256) = true)) ∧
    (t ∈ (GetClaimStatus bitmaps currentIndex).Unclaimed ↔
      (t < currentIndex ∧ (bitmaps (t / 256)).testBit (t % 256) = false)) ∧
    GetClaimStatus (fun _ => 5) 3 = { Claimed := [0, 2], Unclaimed := [1] } := by
  refine ⟨?_, ?_, by decide⟩
  · unfold GetClaimStatus
    simp only
    rw [mem_bucketed currentIndex (fun i j => bitClaimed (bitmaps i) j) t]
    rw [bitClaimed_eq_testBit]
  · unfold GetClaimStatus
    simp only
    rw [mem_bucketed currentIndex (fun i j => ! bitClaimed (bitmaps i) j) t]
    rw [Bool.not_eq_true', bitClaimed_eq_testBit]

/-- Witness for C4: instantiated at the concrete bitmap of the claim. -/
theorem getClaimStatus_partitions_witness :
    (1 ∈ (GetClaimStatus (fun _ => 5) 3).Claimed ↔
      (1 < 3 ∧ ((5 : Nat)).testBit 1 = true)) ∧
    (1 ∈ (GetClaimStatus (fun _ => 5) 3).Unclaimed ↔
      (1 < 3 ∧ ((5 : Nat)).testBit 1 = false)) ∧
    GetClaimStatus (fun _ => 5) 3 = { Claimed := [0, 2], Unclaimed := [1] } := by
  have h := getClaimStatus_partitions (fun _ => 5) 3 1
  simpa using h

/-- A mirror that would succeed on its own makes the loop stop at it:
its bytes are written and the call returns nil. -/
theorem downloadAttempt_success (env : DownloadEnv) (u : Fin 3)
    (rest : List (Fin 3)) (errAcc : String) (b : RewardsFileM)
    (h : mirrorOutcome env u = some b) :
    downloadAttempt env (u :: rest) errAcc =
      { written := some b, result := Except.ok () } := by
  unfold mirrorOutcome at h
  unfold downloadAttempt
  cases hg : env.get u with
  | error e => rw [hg] at h; exact Option.noConfusion h
  | ok p =>
    rw [hg] at h
    obtain ⟨status, bodyRes⟩ := p
    dsimp only at h ⊢
    by_cases hs : status ≠ 200
    · rw [if_pos hs] at h; exact Option.noConfusion h
    · rw [if_neg hs] at h ⊢
      cases bodyRes with
      | error e => exact Option.noConfusion h
      | ok body =>
        dsimp only at h ⊢
        by_cases hu : u.val < 2
        · rw [if_pos hu] at h ⊢
          cases hd : env.decompress body with
          | error e => rw [hd] at h; exact Option.noConfusion h
          | ok d =>
              rw [hd] at h
              dsimp only at h ⊢
              injection h with h
              rw [h]
        · rw [if_neg hu] at h ⊢
          injection h with h
          rw [h]

/-- A mirror that fails on its own makes the loop move to the next URL
with a longer error text. -/
theorem downloadAttempt_fail (env : DownloadEnv) (u : Fin 3)
    (rest : List (Fin 3)) (errAcc : String)
    (h : mirrorOutcome env u = none) :
    ∃ errAcc2, downloadAttempt env (u :: rest) errAcc =
      downloadAttempt env rest errAcc2 := by
  unfold mirrorOutcome at h
  cases hg : env.get u with
  | error e =>
      refine ⟨errAcc ++ "Downloading failed (" ++ e ++ ")\n", ?_⟩
      conv_lhs => unfold downloadAttempt
      rw [hg]
  | ok p =>
    rw [hg] at h
    obtain ⟨status, bodyRes⟩ := p
    dsimp only at h
    by_cases hs : status ≠ 200
    · refine ⟨errAcc ++ "Downloading failed with status\n", ?_⟩
      conv_lhs => unfold downloadAttempt
      rw [hg]
      dsimp only
      rw [if_pos hs]
    · rw [if_neg hs] at h
      cases bodyRes with
      | error e =>
          refine ⟨errAcc ++ "Error reading response bytes: " ++ e ++ "\n", ?_⟩
          conv_lhs => unfold downloadAttempt
          rw [hg]
          dsimp only
          rw [if_neg hs]
      | ok body =>
        dsimp only at h
        by_cases hu : u.val < 2
        · rw [if_pos hu] at h
          cases hd : env.decompress body with
          | error e =>
              refine ⟨errAcc ++ "Error decompressing: " ++ e ++ "\n", ?_⟩
              conv_lhs => unfold downloadAttempt
              rw [hg]
              dsimp only
              rw [if_neg hs]
              rw [if_pos hu, hd]
          | ok d => rw [hd] at h; exact Option.noConfusion h
        · rw [if_neg hu] at h
          exact Option.noConfusion h

/-- Claim C5 counterexample: the primary mirror serves an artifact whose
stored Merkle root (1) differs from the root recorded in the event of
this scenario (`eventRootEx = 2`); `DownloadRewardsFile` still writes it
and reports success, because it never receives, recomputes or compares
any Merkle root: no root validation precedes the write. -/
theorem downloadRewardsFile_writes_without_root_check :
    (DownloadRewardsFile envFirstMirror).written = some fileWrongRoot ∧
    (DownloadRewardsFile envFirstMirror).result.isOk = true ∧
    fileWrongRoot.MerkleRoot ≠ eventRootEx := by
  exact ⟨by decide, by decide, by decide⟩

/-- Claim C5 (corrected): `DownloadRewardsFile` tries the mirror URLs in
order (primary, secondary, network-specific fallback); the first mirror
whose download chain succeeds (HTTP 200, readable body, and successful
decompression for the two compressed mirrors) wins and its artifact is
the only thing written; if every mirror fails, nothing is written and
the call returns an error aggregating the per-mirror failures.  No
Merkle-root validation happens here (it is done later, in
`GetIntervalInfo`). -/
theorem downloadRewardsFile_mirror_order (env : DownloadEnv) :
    (∀ b, mirrorOutcome env 0 = some b →
       DownloadRewardsFile env = { written := some b, result := Except.ok () }) ∧
    (∀ b, mirrorOutcome env 0 = none → mirrorOutcome env 1 = some b →
       DownloadRewardsFile env = { written := some b, result := Except.ok () }) ∧
    (∀ b, mirrorOutcome env 0 = none → mirrorOutcome env 1 = none →
       mirrorOutcome env 2 = some b →
       DownloadRewardsFile env = { written := some b, result := Except.ok () }) ∧
    (mirrorOutcome env 0 = none → mirrorOutcome env 1 = none →
       mirrorOutcome env 2 = none →
       (DownloadRewardsFile env).written = none ∧
       (DownloadRewardsFile env).result.isOk = false) := by
  refine ⟨?_, ?_, ?_, ?_⟩
  · intro b h0
    exact downloadAttempt_success env 0 [1, 2] "" b h0
  · intro b h0 h1
    obtain ⟨e2, he2⟩ := downloadAttempt_fail env 0 [1, 2] "" h0
    unfold DownloadRewardsFile
    rw [he2]
    exact downloadAttempt_success env 1 [2] e2 b h1
  · intro b h0 h1 h2
    obtain ⟨e2, he2⟩ := downloadAttempt_fail env 0 [1, 2] "" h0
    obtain ⟨e3, he3⟩ := downloadAttempt_fail env 1 [2] e2 h1
    unfold DownloadRewardsFile
    rw [he2, he3]
    exact downloadAttempt_success env 2 [] e3 b h2
  · intro h0 h1 h2
    obtain ⟨e2, he2⟩ := downloadAttempt_fail env 0 [1, 2] "" h0
    obtain ⟨e3, he3⟩ := downloadAttempt_fail env 1 [2] e2 h1
    obtain ⟨e4, he4⟩ := downloadAttempt_fail env 2 [] e3 h2
    unfold DownloadRewardsFile
    rw [he2, he3, he4]
    exact ⟨rfl, rfl⟩

/-- Witness for C5 (amended): the primary mirror times out, the
secondary succeeds, and its artifact is written with a nil error. -/
theorem downloadRewardsFile_mirror_order_witness :
    DownloadRewardsFile envSecondMirror =
      { written := some fileGood, result := Except.ok () } :=
  (downloadRewardsFile_mirror_order envSecondMirror).2.1 fileGood
    (by decide) (by decide)

/-- Claim C6 counterexample: the validity verdict of `GetIntervalInfo`
is not a function of the file leaves, so the root it checks is NOT
recomputed from the leaves: two stored files with identical leaves
(`NodeRewards`) under the same on-chain event get opposite
`MerkleRootValid` verdicts, differing only in their stored root field.
The code compares the root RECORDED in the file with the event root and
recomputes nothing. -/
theorem getIntervalInfo_root_not_recomputed :
    (GetIntervalInfo intervalEnvMatch 1 4).toOption.map
      (fun i => i.MerkleRootValid) = some true ∧
    (GetIntervalInfo intervalEnvMismatch 1 4).toOption.map
      (fun i => i.MerkleRootValid) = some false ∧
    fileRootMatch.NodeRewards = fileRootMismatch.NodeRewards ∧
    intervalEnvMatch.event = intervalEnvMismatch.event := by
  exact ⟨by decide, by decide, by decide, rfl⟩

/-- Claim C6 (corrected): `GetIntervalInfo` distinguishes the three
outcomes: a missing local file returns `TreeFileExists = false` with no
error and no amounts; a present file whose STORED Merkle root field
differs from the root recorded in the on-chain event returns
`MerkleRootValid = false` with no amounts or proof; only when the two
roots agree does it report whether the node entry exists and, if so,
its amounts and Merkle proof. -/
theorem getIntervalInfo_three_outcomes (env : IntervalEnv)
    (nodeAddress interval : Nat) (event : RewardsEventM)
    (hev : env.event = Except.ok event) :
    (env.treeFileExists = false →
       GetIntervalInfo env nodeAddress interval = Except.ok
         { Index := interval, CID := event.MerkleTreeCID,
           StartTime := event.IntervalStartTime, EndTime := event.IntervalEndTime }) ∧
    (∀ f, env.treeFileExists = true → env.fileRead = Except.ok () →
       env.fileParse = Except.ok f → f.MerkleRoot ≠ event.MerkleRoot →
       GetIntervalInfo env nodeAddress interval = Except.ok
         { Index := interval, CID := event.MerkleTreeCID,
           StartTime := event.IntervalStartTime, EndTime := event.IntervalEndTime,
           TreeFileExists := true }) ∧
    (∀ f, env.treeFileExists = true → env.fileRead = Except.ok () →
       env.fileParse = Except.ok f → f.MerkleRoot = event.MerkleRoot →
       ((f.NodeRewards.lookup nodeAddress = none →
           GetIntervalInfo env nodeAddress interval = Except.ok
             { Index := interval, CID := event.MerkleTreeCID,
               StartTime := event.IntervalStartTime,
               EndTime := event.IntervalEndTime,
               TreeFileExists := true, MerkleRootValid := true }) ∧
        (∀ r proof, f.NodeRewards.lookup nodeAddress = some r →
           r.MerkleProof = some proof →
           GetIntervalInfo env nodeAddress interval = Except.ok
             { Index := interval, CID := event.MerkleTreeCID,
               StartTime := event.IntervalStartTime,
               EndTime := event.IntervalEndTime,
               TreeFileExists := true, MerkleRootValid := true,
               NodeExists := true,
               CollateralRplAmount := r.CollateralRpl,
               ODaoRplAmount := r.OracleDaoRpl,
               SmoothingPoolEthAmount := r.SmoothingPoolEth,
               MerkleProof := proof }))) := by
  refine ⟨?_, ?_, ?_⟩
  · intro hmiss
    unfold GetIntervalInfo
    rw [hev]
    dsimp only
    rw [if_pos hmiss]
  · intro f hex hread hparse hroot
    unfold GetIntervalInfo
    rw [hev]
    dsimp only
    rw [hex, if_neg (by decide), hread]
    dsimp only
    rw [hparse]
    dsimp only
    rw [if_pos hroot]
  · intro f hex hread hparse hroot
    unfold GetIntervalInfo
    rw [hev]
    dsimp only
    rw [hex, if_neg (by decide), hread]
    dsimp only
    rw [hparse]
    dsimp only
    rw [if_neg (not_not_intro hroot)]
    constructor
    · intro hnone
      rw [hnone]
    · intro r proof hr hp
      rw [hr]
      dsimp only
      rw [hp]

/-- Witness for C6 (amended): the mismatching file of the concrete
scenario yields `MerkleRootValid = false` and no amounts. -/
theorem getIntervalInfo_three_outcomes_witness :
    GetIntervalInfo intervalEnvMismatch 1 4 = Except.ok
      { Index := 4, CID := 42, StartTime := 100, EndTime := 200,
        TreeFileExists := true } :=
  (getIntervalInfo_three_outcomes intervalEnvMismatch 1 4 eventEx rfl).2.1
    fileRootMismatch rfl rfl rfl (by decide)

/-- Claim C7 (confirmed): in `reduceBond`, when the gas price check
fails, the bond reduction transaction is submitted exactly when the
remaining time until `windowStart + windowLength` (measured from the
reduce bond time against the latest block time) has fallen below
`windowLength / 2`; otherwise submission is deferred and the call
returns success `false` with no error.  The preparation steps are
assumed to have succeeded (each would otherwise return its own error
before the scheduling decision). -/
theorem reduceBond_submission_iff_due (env : ReduceBondEnv)
    (windowStart windowLength latestBlockTime reduceBondTime : Int)
    (ht : env.transactor = Except.ok ())
    (hbind : env.binding = Except.ok ())
    (hv3 : env.minipoolV3 = true)
    (hgas : env.estimateGas.isOk = true)
    (hfee : (if env.maxFeeConfigured = 0 then env.headlessMaxFee
             else Except.ok env.maxFeeConfigured).isOk = true)
    (hrbt : env.reduceBondTime = Except.ok reduceBondTime)
    (hcheck : env.gasCheckOk = false) :
    ((reduceBond env windowStart windowLength latestBlockTime).submitted = true ↔
      (windowStart + windowLength) - (latestBlockTime - reduceBondTime) <
        Int.tdiv windowLength reduceBondTimeoutSafetyFactor) ∧
    (¬ ((windowStart + windowLength) - (latestBlockTime - reduceBondTime) <
        Int.tdiv windowLength reduceBondTimeoutSafetyFactor) →
      reduceBond env windowStart windowLength latestBlockTime =
        { submitted := false, success := false, error := none }) := by
  unfold reduceBond
  rw [ht]
  dsimp only
  rw [hbind]
  dsimp only
  rw [hv3, if_neg (by decide)]
  cases hg : env.estimateGas with
  | error e => rw [hg] at hgas; exact Bool.noConfusion hgas
  | ok g =>
    dsimp only
    cases hf : (if env.maxFeeConfigured = 0 then env.headlessMaxFee
                else Except.ok env.maxFeeConfigured) with
    | error e => rw [hf] at hfee; exact Bool.noConfusion hfee
    | ok fee =>
      dsimp only
      rw [hrbt]
      dsimp only
      rw [hcheck, if_neg (by decide)]
      by_cases hdue : (windowStart + windowLength) - (latestBlockTime - reduceBondTime) <
          Int.tdiv windowLength reduceBondTimeoutSafetyFactor
      · rw [if_pos hdue]
        constructor
        · refine ⟨fun _ => hdue, fun _ => ?_⟩
          cases hra : env.reduceBondAmount with
          | error e => rfl
          | ok v =>
            dsimp only
            cases hw : env.waitForTransaction with
            | error e => rfl
            | ok u => rfl
        · intro hnot
          exact absurd hdue hnot
      · rw [if_neg hdue]
        exact ⟨⟨fun hfalse => Bool.noConfusion hfalse, fun hc => absurd hc hdue⟩,
          fun _ => rfl⟩

/-- Witness for C7: in the concrete scenario with `windowStart = 100`,
`windowLength = 60` and reduction requested at time 0, block time 110
is inside the first half of the window and the call defers with
success `false` and no error. -/
theorem reduceBond_submission_iff_due_witness :
    reduceBond envBondReduction 100 60 110 =
      { submitted := false, success := false, error := none } :=
  (reduceBond_submission_iff_due envBondReduction 100 60 110 0
    rfl rfl rfl rfl rfl rfl rfl).2 (by decide)

/-- A fetched header has the requested number, which is in range. -/
theorem headerAt_some {c : ChainEnv} {n : Int} {hdr : Nat × Int}
    (h : headerAt c n = some hdr) :
    (hdr.1 : Int) = n ∧ 0 ≤ n ∧ n ≤ (c.latest : Int) := by
  unfold headerAt at h
  split at h
  · rename_i hcond
    injection h with h
    subst h
    exact ⟨Int.toNat_of_nonneg hcond.1, hcond.1, hcond.2⟩
  · exact Option.noConfusion h

/-- The backward walk only returns the incoming best block or blocks
strictly below the incoming candidate number. -/
theorem walkBack_lt_latest (c : ChainEnv) (target : Int) :
    ∀ fuel : Nat, ∀ candNum candTime : Int, ∀ best hdr : Nat × Int,
      best.1 < c.latest → candNum ≤ (c.latest : Int) - 1 →
      walkBack c target fuel candNum candTime best = some hdr →
      hdr.1 < c.latest := by
  intro fuel
  induction fuel with
  | zero => intro candNum candTime best hdr _ _ hr; exact Option.noConfusion hr
  | succ n ih =>
    intro candNum candTime best hdr hbest hcand hr
    unfold walkBack at hr
    by_cases hc : target < candTime
    · rw [if_pos hc] at hr
      cases hh : headerAt c (candNum - 1) with
      | none => rw [hh] at hr; exact Option.noConfusion hr
      | some hdr2 =>
        rw [hh] at hr
        dsimp only at hr
        obtain ⟨hnum, _hge, _hle⟩ := headerAt_some hh
        have hlt2 : hdr2.1 < c.latest := by omega
        have hle2 : candNum - 1 ≤ (c.latest : Int) - 1 := by omega
        exact ih (candNum - 1) hdr2.2 hdr2 hdr hlt2 hle2 hr
    · rw [if_neg hc] at hr
      injection hr with hr
      rw [← hr]
      exact hbest

/-- The clamp never passes `latest - 1`. -/
theorem clampCand_le (c : ChainEnv) (moved : Int) :
    clampCand c moved ≤ (c.latest : Int) - 1 := by
  unfold clampCand
  split
  · exact le_refl _
  · rename_i hngt
    omega

/-- A header fetched at a clamped number is strictly below the head. -/
theorem headerAt_clampCand {c : ChainEnv} {m : Int} {hdr : Nat × Int}
    (h : headerAt c (clampCand c m) = some hdr) : hdr.1 < c.latest := by
  obtain ⟨hnum, hge, _hle⟩ := headerAt_some h
  have hcl := clampCand_le c m
  omega

/-- The bisection loop only returns blocks strictly below the head, as
long as the incoming candidate and best block are below it and the
candidate number is at most `latest - 1`. -/
theorem bisectLoop_lt_latest (c : ChainEnv) (target : Int) :
    ∀ fuel : Nat, ∀ candNum : Int, ∀ cand best : Nat × Int,
      ∀ minDist : Option Nat, ∀ pivotSize : Nat, ∀ hdr : Nat × Int,
      best.1 < c.latest → cand.1 < c.latest → candNum ≤ (c.latest : Int) - 1 →
      bisectLoop c target fuel candNum cand best minDist pivotSize = some hdr →
      hdr.1 < c.latest := by
  intro fuel
  induction fuel with
  | zero =>
      intro candNum cand best minDist pivotSize hdr _ _ _ hr
      exact Option.noConfusion hr
  | succ n ih =>
    intro candNum cand best minDist pivotSize hdr hbest hcand hnum hr
    unfold bisectLoop at hr
    dsimp only at hr
    split at hr
    · exact walkBack_lt_latest c target n candNum cand.2 best hdr hbest hnum hr
    · split at hr
      · exact Option.noConfusion hr
      · rename_i hdr2 hh
        refine ih _ hdr2 _ _ _ hdr ?_ (headerAt_clampCand hh) (clampCand_le c _) hr
        split
        · exact hcand
        · exact hbest

/-- Claim C8 counterexample: with the head at the deployment block (or
one past it) the initial midpoint IS the head, and a target time at or
after the head timestamp makes the head the unbeatable best candidate:
the search returns the current head block itself, not a block strictly
before it.  Here the chain has head block 5 (timestamp 10), deployment
block 5, target time 20. -/
theorem getELBlockHeader_returns_head_counterexample :
    GetELBlockHeaderForTime chainFive 5 20 12 = some (5, 10) ∧
    (5 : Nat) = chainFive.latest := by
  exact ⟨by decide, rfl⟩

/-- Claim C8 (corrected): whenever the current head is at least two
blocks past the deployment block (so the bisection midpoint
`latest - (latest - deploy) / 2` starts strictly below the head, and
the per-step clamp to `latest - 1` keeps every later candidate there),
any block returned by `GetELBlockHeaderForTime` has number strictly
less than the current head; with `latest ≤ deploy + 1` the head itself
can be returned, as the counterexample shows. -/
theorem getELBlockHeader_below_head (c : ChainEnv) (deployBlock : Nat)
    (target : Int) (fuel : Nat) (hdr : Nat × Int)
    (hdeploy : deployBlock + 2 ≤ c.latest)
    (h : GetELBlockHeaderForTime c deployBlock target fuel = some hdr) :
    hdr.1 < c.latest := by
  unfold GetELBlockHeaderForTime at h
  set delta : Int := ((c.latest : Int) - (deployBlock : Int)) / 2 with hdelta
  dsimp only at h
  have hdelta1 : 1 ≤ delta := by
    rw [hdelta]
    have h2 : (2 : Int) ≤ (c.latest : Int) - (deployBlock : Int) := by
      omega
    have := Int.ediv_le_ediv (by decide : (0 : Int) < 2) h2
    simpa using this
  have hstart : (c.latest : Int) - delta ≤ (c.latest : Int) - 1 := by omega
  cases hh : headerAt c ((c.latest : Int) - delta) with
  | none => rw [hh] at h; exact Option.noConfusion h
  | some cand =>
    rw [hh] at h
    dsimp only at h
    obtain ⟨hnum, _hge, _hle⟩ := headerAt_some hh
    have hcand : cand.1 < c.latest := by omega
    exact bisectLoop_lt_latest c target fuel ((c.latest : Int) - delta) cand cand
      none cand.1 hdr hcand hcand hstart h

/-- Witness for C8 (amended): on the five-block chain with deployment
block 0 and target time 20 the search returns block 4, strictly below
head 5. -/
theorem getELBlockHeader_below_head_witness :
    (0 : Nat) + 2 ≤ chainFive.latest ∧ (4 : Nat) < chainFive.latest :=
  ⟨by decide, getELBlockHeader_below_head chainFive 0 20 12 (4, 8)
    (by decide) (by decide)⟩

end Smartnode
